import Mathlib

/-
Verification of the go-ayame signaling client (package ayame).

The development shallowly embeds src/ayame/connection.go and
src/ayame/options.go.  Stateful Go methods on *Connection become pure
functions from a `Connection` record to a new record plus a trace of
observable events (frames written to the transport, callback-handler
invocations, task spawns) plus an optional Go error.  The external
media-session engine (pion webrtc) is out of scope per the spec and is
modelled by an `Engine` record of operation outcomes; the websocket
transport's dial/write outcomes are passed as Boolean parameters.
JSON (de)serialisation is modelled abstractly: an inbound frame is
either malformed or a parsed tagged message, mirroring the two-stage
decode described in the spec (the message-struct definitions live in a
repository file not under src/ and follow the wire shapes of spec sec. 6).
-/

namespace Ayame

/-- ICE connection states of the engine (webrtc.ICEConnectionState). -/
inductive ICEConnectionState
  | new | checking | connected | completed | disconnected | failed | closed
  deriving DecidableEq, Repr

/-- Signaling states of the engine (webrtc.SignalingState). -/
inductive SignalingState
  | stable | haveLocalOffer | haveRemoteOffer | haveLocalPranswer | haveRemotePranswer | closed
  deriving DecidableEq, Repr

/-- ICE credential types (webrtc.ICECredentialType). -/
inductive ICECredentialType
  | password | oauth
  deriving DecidableEq, Repr

/-- An ICE server entry of the engine configuration (webrtc.ICEServer). -/
structure ICEServer where
  URLs : List String
  Username : String := ""
  Credential : Option String := none
  CredentialType : ICECredentialType := .password
  deriving DecidableEq, Repr

/-- Engine configuration (webrtc.Configuration), restricted to the field
the client code uses (pcConfig.ICEServers). -/
structure Configuration where
  ICEServers : List ICEServer := []
  deriving DecidableEq, Repr

/-- ConnectionAudioOption from src/ayame/options.go. -/
structure ConnectionAudioOption where
  Direction : String
  Enabled : Bool
  deriving DecidableEq, Repr

/-- ConnectionVideoOption from src/ayame/options.go. -/
structure ConnectionVideoOption where
  Codec : String
  Direction : String
  Enabled : Bool
  deriving DecidableEq, Repr

/-- ConnectionOptions from src/ayame/options.go.  ICEServers is the
fallback list used when the relay supplies none. -/
structure ConnectionOptions where
  Audio : ConnectionAudioOption
  Video : ConnectionVideoOption
  ClientID : String
  ICEServers : List ICEServer
  SignalingKey : String
  deriving DecidableEq, Repr

/-- SDP description kinds (webrtc.SDPType). -/
inductive SDPType
  | offer | pranswer | answer | rollback
  deriving DecidableEq, Repr

/-- A session description (webrtc.SessionDescription): a kind tag plus
the opaque SDP payload. -/
structure SessionDescription where
  sdpType : SDPType
  SDP : String
  deriving DecidableEq, Repr

/-- An ICE candidate payload (webrtc.ICECandidateInit). -/
structure ICECandidateInit where
  candidate : String
  sdpMid : Option String := none
  sdpMLineIndex : Option Nat := none
  deriving DecidableEq, Repr

/-- The engine-side peer-connection handle: the slice of pion state the
client code observes (signaling state, local/remote descriptions) plus
the remote candidates handed to the engine. -/
structure PeerConnection where
  signalingState : SignalingState := .stable
  localDescription : Option SessionDescription := none
  remoteDescription : Option SessionDescription := none
  remoteCandidates : List ICECandidateInit := []
  deriving DecidableEq, Repr

/-- A freshly created peer connection (api.NewPeerConnection result). -/
def PeerConnection.fresh : PeerConnection := {}

/-- SetLocalDescription: stores the description; an offer moves the
signaling state to have-local-offer, an answer back to stable. -/
def PeerConnection.setLocal (pc : PeerConnection) (d : SessionDescription) : PeerConnection :=
  { pc with
      localDescription := some d
      signalingState := match d.sdpType with
        | .offer => .haveLocalOffer
        | _ => .stable }

/-- SetRemoteDescription: stores the description; an offer moves the
signaling state to have-remote-offer, an answer back to stable. -/
def PeerConnection.setRemote (pc : PeerConnection) (d : SessionDescription) : PeerConnection :=
  { pc with
      remoteDescription := some d
      signalingState := match d.sdpType with
        | .offer => .haveRemoteOffer
        | _ => .stable }

/-- Consumer metadata payloads (Go interface values), kept opaque. -/
abbrev Metadata := String

/-- A callback slot: either the no-op stub installed by Disconnect (and
by the constructor) or a consumer-registered function, tagged by an id
so invocations of distinct handlers are distinguishable in the trace. -/
inductive Handler
  | stub
  | user (id : Nat)
  deriving DecidableEq, Repr

/-- Modelled from the spec: the wire iceServers entry of the accept
message (the message-struct file is not under src/); spec sec. 6 gives
the shape as urls plus optional username and credential, matching the
field accesses s.Urls, s.UserName, s.Credential in connection.go. -/
structure IceServerEntry where
  Urls : List String
  UserName : Option String := none
  Credential : Option String := none
  deriving DecidableEq, Repr

/-- Modelled from the spec: the accept message body (spec sec. 6):
connectionId, optional authzMetadata, optional iceServers, isExistUser
(bound by connection.go to the isExistClient flag). -/
structure AcceptMessage where
  ConnectionID : String
  AuthzMetadata : Option Metadata := none
  IceServers : Option (List IceServerEntry) := none
  IsExistClient : Bool
  deriving DecidableEq, Repr

/-- A successfully decoded inbound message, one constructor per `type`
tag that handleMessage's switch recognises; every other tag is
`unknown`.  The reject reason decodes to "" when the field is absent
(the Go zero value of the string field). -/
inductive WireMessage
  | ping
  | bye
  | accept (m : AcceptMessage)
  | reject (reason : String)
  | offer (d : SessionDescription)
  | answer (d : SessionDescription)
  | candidate (ice : Option ICECandidateInit)
  | unknown (tag : String)
  deriving DecidableEq, Repr

/-- A raw inbound frame: its byte size plus either a parse failure or
the decoded message (two-stage JSON decode modelled abstractly). -/
inductive RawMessage
  | malformed (size : Nat)
  | parsed (size : Nat) (m : WireMessage)
  deriving DecidableEq, Repr

/-- Modelled from the spec: the register message body (spec sec. 6). -/
structure RegisterMessage where
  RoomID : String
  ClientID : String
  AuthnMetadata : Option Metadata
  SignalingKey : Option String
  AyameClient : String
  Environment : String
  deriving DecidableEq, Repr

/-- Outbound frames the client writes to the transport. -/
inductive OutMessage
  | pong
  | register (m : RegisterMessage)
  | sdp (d : SessionDescription)
  deriving DecidableEq, Repr

/-- Observable events of a run: frames written, the websocket close,
task spawns, and callback-handler invocations (tagged with the handler
value that was actually invoked). -/
inductive Event
  | sent (m : OutMessage)
  | wsClosed
  | taskStarted (taskName : String)
  | cbOpen (h : Handler) (meta : Option Metadata)
  | cbConnect (h : Handler)
  | cbDisconnect (h : Handler) (reason : String) (err : Option String)
  | cbBye (h : Handler)
  deriving DecidableEq, Repr

/-- Go error values returned by the embedded functions. -/
inductive GoError
  | connectionAlreadyExists
  | wsAlreadyExists
  | wsOpenError
  | sendError
  | invalidJSON
  | invalidMessageType
  | unsupportedVideoCodec (codec : String)
  | engineFailure (op : String)
  deriving DecidableEq, Repr

/-- The Connection record of src/ayame/connection.go.  The websocket
handle carries no observable state beyond presence, so it is
Option Unit; lower-case fields are the unexported derived state. -/
structure Connection where
  SignalingURL : String
  RoomID : String
  Options : ConnectionOptions
  Debug : Bool := false
  AuthnMetadata : Option Metadata := none
  authzMetadata : Option Metadata := none
  connectionState : ICEConnectionState := .new
  connectionID : String := ""
  ws : Option Unit := none
  pc : Option PeerConnection := none
  pcConfig : Configuration := {}
  isOffer : Bool := false
  isExistClient : Bool := false
  onOpenHandler : Handler := .stub
  onConnectHandler : Handler := .stub
  onDisconnectHandler : Handler := .stub
  onTrackPacketHandler : Handler := .stub
  onByeHandler : Handler := .stub
  deriving DecidableEq, Repr

/-- Outcomes of the external media-session engine's operations, fixed
per run: success flags for constructor-side calls, and the produced SDP
payloads (none = the engine call errors) for description creation. -/
structure Engine where
  newPeerConnection : Bool := true
  addTransceiver : Bool := true
  createOffer : Option String := some "local-offer-sdp"
  createAnswer : Option String := some "local-answer-sdp"
  setRemoteDescription : Bool := true
  deriving DecidableEq, Repr

/-- The all-successful engine. -/
def engine0 : Engine := {}

/-- The frame read limit constant of connection.go (1 MiB).  It is
declared in src/ayame/connection.go line 22 but never installed on the
websocket (openWS performs no SetReadLimit call), and handleMessage
never inspects frame sizes. -/
def readLimit : Nat := 1048576

/-- Modelled from the spec: the repository's constructor is not under
src/.  Spec sec. 3 and the ConnectionOptions comment say the options'
ICEServers list is the fallback used when the relay supplies none, so
the constructor seeds the engine configuration with it; the Callback
Set starts as no-op stubs (spec sec. 3). -/
def NewConnection (url roomID : String) (opts : ConnectionOptions) : Connection :=
  { SignalingURL := url
    RoomID := roomID
    Options := opts
    pcConfig := { ICEServers := opts.ICEServers } }

/-- sendMsg (connection.go:171): a write is attempted only when the
websocket handle is present; with no handle it is a silent no-op. -/
def sendMsgEv (c : Connection) (m : OutMessage) : List Event :=
  match c.ws with
  | none => []
  | some _ => [.sent m]

/-- registerMessage built by sendRegisterMessage (connection.go:195):
room id, client id from the options, the authn metadata when set, the
signaling key when non-empty, plus client-identity and platform
strings.  The platform string comes from the Go runtime; a fixed
representative value stands for it. -/
def registerMessageOf (c : Connection) : RegisterMessage :=
  { RoomID := c.RoomID
    ClientID := c.Options.ClientID
    AuthnMetadata := c.AuthnMetadata
    SignalingKey := if c.Options.SignalingKey = "" then none else some c.Options.SignalingKey
    AyameClient := "go-ayame v0.1.0"
    Environment := "GOOS GOARCH" }

/-- sendRegisterMessage (connection.go:195).  The write outcome is the
sendOK parameter; with no websocket handle nothing is written and nil
is returned (sendMsg's guard). -/
def sendRegisterMessage (sendOK : Bool) (c : Connection) : List Event × Option GoError :=
  match c.ws with
  | none => ([], none)
  | some _ => ([.sent (.register (registerMessageOf c))], if sendOK then none else some .sendError)

/-- closePeerConnection (connection.go:412).  With no handle it
returns at once; with an already-closed engine session it just clears
the handle; otherwise it closes the session and the spawned poll task
clears the handle once the engine reports the closed state — that
asynchronous completion is folded in, so the returned state is the
quiescent one with the handle cleared. -/
def closePeerConnection (c : Connection) : Connection :=
  match c.pc with
  | none => c
  | some pc =>
    if pc.signalingState = SignalingState.closed then { c with pc := none }
    else { c with pc := none }

/-- closeWebSocketConnection (connection.go:437): with no handle a
no-op; otherwise sends the close frame best-effort and clears the
handle. -/
def closeWebSocketConnection (c : Connection) : Connection × List Event :=
  match c.ws with
  | none => (c, [])
  | some _ => ({ c with ws := none }, [.wsClosed])

/-- Disconnect (connection.go:79): closes the session then the
transport, resets all derived negotiation state to initial values and
all five callback slots to the no-op stub. -/
def Disconnect (c : Connection) : Connection × List Event :=
  let c1 := closePeerConnection c
  let p := closeWebSocketConnection c1
  ({ p.1 with
      authzMetadata := none
      connectionID := ""
      connectionState := ICEConnectionState.new
      isOffer := false
      isExistClient := false
      onOpenHandler := Handler.stub
      onConnectHandler := Handler.stub
      onDisconnectHandler := Handler.stub
      onTrackPacketHandler := Handler.stub
      onByeHandler := Handler.stub }, p.2)

/-- createPeerConnection (connection.go:223): rejects any video codec
other than VP8 before touching the engine; then creates the engine
session (and transceivers for the enabled media); when a previous
handle existed the new one replaces it and the on-open handler is
invoked with the authorization metadata, otherwise the handle is
installed silently. -/
def createPeerConnection (eng : Engine) (c : Connection) : Connection × List Event × Option GoError :=
  if c.Options.Video.Codec ≠ "VP8" then
    (c, [], some (GoError.unsupportedVideoCodec c.Options.Video.Codec))
  else if !eng.newPeerConnection then
    (c, [], some (GoError.engineFailure "NewPeerConnection"))
  else if c.Options.Audio.Enabled && !eng.addTransceiver then
    (c, [], some (GoError.engineFailure "AddTransceiver"))
  else if c.Options.Video.Enabled && !eng.addTransceiver then
    (c, [], some (GoError.engineFailure "AddTransceiver"))
  else
    match c.pc with
    | some _ => ({ c with pc := some PeerConnection.fresh }, [.cbOpen c.onOpenHandler c.authzMetadata], none)
    | none => ({ c with pc := some PeerConnection.fresh }, [], none)

/-- sendOffer (connection.go:334): nil handle is a silent success;
otherwise creates the local offer, sets it as local description, sends
the local description when present, and marks this side the offerer. -/
def sendOffer (eng : Engine) (c : Connection) : Connection × List Event × Option GoError :=
  match c.pc with
  | none => (c, [], none)
  | some pc =>
    match eng.createOffer with
    | none => (c, [], some (GoError.engineFailure "CreateOffer"))
    | some s =>
      let pc1 := pc.setLocal { sdpType := SDPType.offer, SDP := s }
      let ev := match pc1.localDescription with
        | some d => sendMsgEv c (.sdp d)
        | none => []
      ({ c with pc := some pc1, isOffer := true }, ev, none)

/-- createAnswer (connection.go:352): nil handle is a silent success;
on engine failure it tears down and invokes the on-disconnect slot
(which the teardown has just reset to the stub) with reason
CREATE-ANSWER-ERROR; on success it sets and sends the local answer. -/
def createAnswer (eng : Engine) (c : Connection) : Connection × List Event × Option GoError :=
  match c.pc with
  | none => (c, [], none)
  | some pc =>
    match eng.createAnswer with
    | none =>
      let p := Disconnect c
      (p.1, p.2 ++ [.cbDisconnect p.1.onDisconnectHandler "CREATE-ANSWER-ERROR" (some "CreateAnswer")],
        some (GoError.engineFailure "CreateAnswer"))
    | some s =>
      let pc1 := pc.setLocal { sdpType := SDPType.answer, SDP := s }
      let ev := match pc1.localDescription with
        | some d => sendMsgEv c (.sdp d)
        | none => []
      ({ c with pc := some pc1 }, ev, none)

/-- setOffer (connection.go:383): nil handle is a silent success; on
remote-description rejection it tears down and invokes the
on-disconnect slot (reset to the stub by the teardown) with reason
CREATE-OFFER-ERROR; on success it applies the remote offer and
creates the answer. -/
def setOffer (eng : Engine) (c : Connection) (d : SessionDescription) :
    Connection × List Event × Option GoError :=
  match c.pc with
  | none => (c, [], none)
  | some pc =>
    if !eng.setRemoteDescription then
      let p := Disconnect c
      (p.1, p.2 ++ [.cbDisconnect p.1.onDisconnectHandler "CREATE-OFFER-ERROR" (some "SetRemoteDescription")],
        some (GoError.engineFailure "SetRemoteDescription"))
    else
      createAnswer eng { c with pc := some (pc.setRemote d) }

/-- setAnswer (connection.go:371): nil handle is a silent success; a
remote-description failure is returned without teardown. -/
def setAnswer (eng : Engine) (c : Connection) (d : SessionDescription) :
    Connection × List Event × Option GoError :=
  match c.pc with
  | none => (c, [], none)
  | some pc =>
    if !eng.setRemoteDescription then (c, [], some (GoError.engineFailure "SetRemoteDescription"))
    else ({ c with pc := some (pc.setRemote d) }, [], none)

/-- addICECandidate (connection.go:401): nil handle returns at once;
otherwise the candidate is handed to the engine and any engine
rejection is logged and ignored. -/
def addICECandidate (c : Connection) (cand : ICECandidateInit) : Connection :=
  match c.pc with
  | none => c
  | some pc => { c with pc := some { pc with remoteCandidates := pc.remoteCandidates ++ [cand] } }

/-- signaling (connection.go:139): refuses when a websocket already
exists; dials (outcome openOK); on success installs the handle, spawns
the read and dispatch tasks and sends the register message. -/
def signaling (openOK sendOK : Bool) (c : Connection) : Connection × List Event × Option GoError :=
  match c.ws with
  | some _ => (c, [], some GoError.wsAlreadyExists)
  | none =>
    if !openOK then (c, [], some GoError.wsOpenError)
    else
      let c1 := { c with ws := some () }
      let p := sendRegisterMessage sendOK c1
      (c1, [Event.taskStarted "recv", Event.taskStarted "main"] ++ p.1, p.2)

/-- Connect (connection.go:69): returns an error at once when a
transport or session handle already exists; otherwise runs signaling
and discards its result, returning nil. -/
def Connect (openOK sendOK : Bool) (c : Connection) : Connection × List Event × Option GoError :=
  if c.ws.isSome || c.pc.isSome then (c, [], some GoError.connectionAlreadyExists)
  else
    let p := signaling openOK sendOK c
    (p.1, p.2.1, none)

/-- The iceServers-entry conversion of the accept case
(connection.go:519): urls always, username and credential only when
present, and the password credential type exactly when a credential is
present. -/
def iceServerFromEntry (s : IceServerEntry) : ICEServer :=
  let base : ICEServer := { URLs := s.Urls }
  let base1 := match s.UserName with
    | some u => { base with Username := u }
    | none => base
  match s.Credential with
  | some cred => { base1 with Credential := some cred, CredentialType := ICECredentialType.password }
  | none => base1

/-- handleMessage (connection.go:495): decode failure yields
InvalidJSON; then the switch on the type tag, with an unknown tag
yielding InvalidMessageType.  Error results of sendPongMessage and of
createPeerConnection in the accept and glare paths are discarded,
mirroring the source. -/
def handleMessage (eng : Engine) (c : Connection) (raw : RawMessage) :
    Connection × List Event × Option GoError :=
  match raw with
  | .malformed _ => (c, [], some GoError.invalidJSON)
  | .parsed _ m =>
    match m with
    | .ping => (c, sendMsgEv c .pong, none)
    | .bye =>
      let p := Disconnect c
      (p.1, [Event.cbBye c.onByeHandler] ++ p.2, none)
    | .accept a =>
      let c1 := { c with connectionID := a.ConnectionID, authzMetadata := a.AuthzMetadata }
      let c2 := match a.IceServers with
        | some l =>
          if l ≠ [] then
            { c1 with pcConfig := { c1.pcConfig with ICEServers := l.map iceServerFromEntry } }
          else c1
        | none => c1
      let c3 := { c2 with isExistClient := a.IsExistClient }
      let q := createPeerConnection eng c3
      if q.1.isExistClient then
        let r := sendOffer eng q.1
        (r.1, q.2.1 ++ r.2.1, r.2.2)
      else (q.1, q.2.1, none)
    | .reject reason =>
      let rejectReason := if reason = "" then "REJECTED" else reason
      let p := Disconnect c
      (p.1, p.2 ++ [Event.cbDisconnect p.1.onDisconnectHandler rejectReason none], none)
    | .offer d =>
      let p : Connection × List Event :=
        match c.pc with
        | some pc =>
          if pc.signalingState = SignalingState.haveLocalOffer then
            let q := createPeerConnection eng c
            (q.1, q.2.1)
          else (c, [])
        | none => (c, [])
      let r := setOffer eng p.1 d
      (r.1, p.2 ++ r.2.1, r.2.2)
    | .answer d => setAnswer eng c d
    | .candidate ice =>
      match ice with
      | some cand => (addICECandidate c cand, [], none)
      | none => (c, [], none)
    | .unknown _ => (c, [], some GoError.invalidMessageType)

/-- How the dispatch loop ends: the bounded queue was closed by the
read task (clean end-of-stream) or handleMessage returned an error and
the loop broke out. -/
inductive MainExit
  | channelClosed
  | dispatchError (e : GoError)
  deriving DecidableEq, Repr

/-- The dispatch task main (connection.go:449) over a finite queue
content: frames are applied strictly in order; the first handleMessage
error breaks the loop, leaving later frames unprocessed; queue
exhaustion is the clean channel-closed exit. -/
def runMain (eng : Engine) (c : Connection) : List RawMessage → Connection × List Event × MainExit
  | [] => (c, [], MainExit.channelClosed)
  | f :: fs =>
    let r := handleMessage eng c f
    match r.2.2 with
    | none =>
      let s := runMain eng r.1 fs
      (s.1, r.2.1 ++ s.2.1, s.2.2)
    | some e => (r.1, r.2.1, MainExit.dispatchError e)

/-- Recognises a written session-description frame. -/
def Event.isSentSdp : Event → Bool
  | .sent (.sdp _) => true
  | _ => false

/-- Recognises a written offer frame. -/
def Event.isSentOffer : Event → Bool
  | .sent (.sdp d) => match d.sdpType with | .offer => true | _ => false
  | _ => false

/-- Recognises a written answer frame. -/
def Event.isSentAnswer : Event → Bool
  | .sent (.sdp d) => match d.sdpType with | .answer => true | _ => false
  | _ => false

/-- Recognises an invocation of a consumer-registered on-disconnect
handler (the stub does not count). -/
def Event.isUserDisconnectCb : Event → Bool
  | .cbDisconnect (.user _) _ _ => true
  | _ => false

/-- Recognises any callback-handler invocation. -/
def Event.isCallback : Event → Bool
  | .cbOpen _ _ => true
  | .cbConnect _ => true
  | .cbDisconnect _ _ _ => true
  | .cbBye _ => true
  | _ => false

/-- A representative options value: VP8 video, recvonly, one fallback
ICE server, no signaling key. -/
def opts0 : ConnectionOptions :=
  { Audio := { Direction := "recvonly", Enabled := false }
    Video := { Codec := "VP8", Direction := "recvonly", Enabled := true }
    ClientID := "client-1"
    ICEServers := [{ URLs := ["stun:stun.example.com:3478"] }]
    SignalingKey := "" }

/-- A freshly constructed connection (no transport, no session). -/
def connFresh : Connection := NewConnection "wss://ayame.example/signaling" "room-1" opts0

/-- A connection whose transport is open (post-register state). -/
def connReady : Connection := { connFresh with ws := some () }

/-- connReady with consumer-registered handlers in all five slots. -/
def connReadyUser : Connection :=
  { connReady with
      onOpenHandler := Handler.user 1
      onConnectHandler := Handler.user 2
      onDisconnectHandler := Handler.user 3
      onTrackPacketHandler := Handler.user 4
      onByeHandler := Handler.user 5 }

/-- A connection configured with the unsupported H264 video codec. -/
def connH264 : Connection :=
  { connFresh with Options :=
      { opts0 with Video := { Codec := "H264", Direction := "recvonly", Enabled := true } } }

/-- A connection with an open transport whose session is waiting on its
own offer's answer (signaling state have-local-offer). -/
def connGlare : Connection :=
  { connReady with pc := some { signalingState := SignalingState.haveLocalOffer } }

/-- createPeerConnection never touches the engine configuration. -/
theorem createPeerConnection_pcConfig (eng : Engine) (c : Connection) :
    (createPeerConnection eng c).1.pcConfig = c.pcConfig := by
  unfold createPeerConnection
  repeat' split
  all_goals rfl

/-- sendOffer never touches the engine configuration. -/
theorem sendOffer_pcConfig (eng : Engine) (c : Connection) :
    (sendOffer eng c).1.pcConfig = c.pcConfig := by
  unfold sendOffer
  repeat' split
  all_goals rfl

/-- Claim C5: session creation fails with an error whenever the requested
video codec is anything other than VP8; the connection state is unchanged
and no frame is written and no callback fires, so the failure surfaces
before any network activity. -/
theorem createPeerConnection_rejects_non_vp8 (eng : Engine) (c : Connection)
    (h : c.Options.Video.Codec ≠ "VP8") :
    createPeerConnection eng c
      = (c, [], some (GoError.unsupportedVideoCodec c.Options.Video.Codec)) := by
  simp [createPeerConnection, h]

/-- Witness for C5: requesting H264 in an otherwise valid configuration is
rejected with the unsupported-codec error and no state change. -/
theorem createPeerConnection_rejects_non_vp8_witness :
    createPeerConnection engine0 connH264
      = (connH264, [], some (GoError.unsupportedVideoCodec "H264")) := by
  have h := createPeerConnection_rejects_non_vp8 engine0 connH264 (by decide)
  simpa using h

/-- Claim C2: Disconnect resets the connection id, authorization metadata,
offerer flag, remote-peer flag and connectivity phase to their initial
values, installs the no-op stub in all five callback slots and clears both
handles; a second Disconnect observes the nil handles, changes nothing and
performs no further observable action. -/
theorem Disconnect_resets_and_idempotent (c : Connection) :
    ((Disconnect c).1.connectionID = "" ∧
     (Disconnect c).1.authzMetadata = none ∧
     (Disconnect c).1.connectionState = ICEConnectionState.new ∧
     (Disconnect c).1.isOffer = false ∧
     (Disconnect c).1.isExistClient = false) ∧
    ((Disconnect c).1.onOpenHandler = Handler.stub ∧
     (Disconnect c).1.onConnectHandler = Handler.stub ∧
     (Disconnect c).1.onDisconnectHandler = Handler.stub ∧
     (Disconnect c).1.onTrackPacketHandler = Handler.stub ∧
     (Disconnect c).1.onByeHandler = Handler.stub) ∧
    ((Disconnect c).1.ws = none ∧ (Disconnect c).1.pc = none) ∧
    Disconnect (Disconnect c).1 = ((Disconnect c).1, []) := by
  rcases hw : c.ws <;> rcases hp : c.pc <;>
    simp [Disconnect, closePeerConnection, closeWebSocketConnection, hw, hp]

/-- Claim C1 (code bug, evaluated at the failing input): with consumer
handlers registered in all five slots, the inbound reject with reason
"full" performs the teardown but the single on-disconnect invocation goes
to the no-op stub — Disconnect has already reset the slot — so the
consumer-registered handler is invoked zero times; with an empty reason
the computed default "REJECTED" likewise reaches only the stub. -/
theorem reject_invokes_stub_not_consumer_handler :
    (handleMessage engine0 connReadyUser (RawMessage.parsed 40 (WireMessage.reject "full"))
      = ({ connReadyUser with
            ws := none
            onOpenHandler := Handler.stub
            onConnectHandler := Handler.stub
            onDisconnectHandler := Handler.stub
            onTrackPacketHandler := Handler.stub
            onByeHandler := Handler.stub },
         [Event.wsClosed, Event.cbDisconnect Handler.stub "full" none], none)) ∧
    (List.countP Event.isUserDisconnectCb
      (handleMessage engine0 connReadyUser (RawMessage.parsed 40 (WireMessage.reject "full"))).2.1 = 0) ∧
    ((handleMessage engine0 connReadyUser (RawMessage.parsed 30 (WireMessage.reject ""))).2.1
      = [Event.wsClosed, Event.cbDisconnect Handler.stub "REJECTED" none]) := by
  decide

/-- Claim C9: when no transport or session exists, Connect returns nil even
when the dial or the register write fails; the signaling routine does
produce the corresponding error, and Connect discards it. -/
theorem Connect_discards_signaling_error (c : Connection) (openOK sendOK : Bool)
    (hws : c.ws = none) (hpc : c.pc = none) :
    (Connect openOK sendOK c).2.2 = none ∧
    (openOK = false → (signaling openOK sendOK c).2.2 = some GoError.wsOpenError) ∧
    (openOK = true → sendOK = false → (signaling openOK sendOK c).2.2 = some GoError.sendError) := by
  refine ⟨?_, ?_, ?_⟩
  · simp [Connect, hws, hpc]
  · intro h; subst h; simp [signaling, hws]
  · intro h1 h2; subst h1; subst h2; simp [signaling, sendRegisterMessage, hws]

/-- Witness for C9: on a fresh connection whose dial fails, Connect still
returns nil while signaling reports the dial error. -/
theorem Connect_discards_signaling_error_witness :
    (Connect false true connFresh).2.2 = none ∧
    (signaling false true connFresh).2.2 = some GoError.wsOpenError := by
  have h := Connect_discards_signaling_error connFresh false true rfl rfl
  exact ⟨h.1, h.2.1 rfl⟩

/-- Claim C10: with no session handle, inbound offer, answer and candidate
messages are successful no-ops — setOffer, setAnswer and addICECandidate
return success without side effects, handleMessage leaves the state
untouched, returns no error (so dispatch continues) and fires no
callback. -/
theorem nil_pc_messages_are_noops (eng : Engine) (c : Connection)
    (d d2 : SessionDescription) (cand : ICECandidateInit)
    (ice : Option ICECandidateInit) (n : Nat) (hpc : c.pc = none) :
    setOffer eng c d = (c, [], none) ∧
    setAnswer eng c d2 = (c, [], none) ∧
    addICECandidate c cand = c ∧
    handleMessage eng c (RawMessage.parsed n (WireMessage.offer d)) = (c, [], none) ∧
    handleMessage eng c (RawMessage.parsed n (WireMessage.answer d2)) = (c, [], none) ∧
    handleMessage eng c (RawMessage.parsed n (WireMessage.candidate ice)) = (c, [], none) := by
  rcases ice with _ | cand2 <;>
    simp [setOffer, setAnswer, addICECandidate, handleMessage, hpc]

/-- Witness for C10: on a fresh connection (no session) a remote offer, a
remote answer and a candidate are all exact no-ops. -/
theorem nil_pc_messages_are_noops_witness :
    setOffer engine0 connFresh { sdpType := SDPType.offer, SDP := "o" } = (connFresh, [], none) ∧
    handleMessage engine0 connFresh
      (RawMessage.parsed 7 (WireMessage.candidate (some { candidate := "cand-0" })))
      = (connFresh, [], none) := by
  have h := nil_pc_messages_are_noops engine0 connFresh
    { sdpType := SDPType.offer, SDP := "o" } { sdpType := SDPType.answer, SDP := "a" }
    { candidate := "cand-0" } (some { candidate := "cand-0" }) 7 rfl
  exact ⟨h.1, h.2.2.2.2.2⟩

/-- Claim C8 (counterexample): a well-formed ping frame one byte over the
declared 1 MiB read-limit constant is processed normally — handleMessage
returns no error and dispatch runs to the clean channel-closed exit, not a
protocol error; the dispatch path never inspects frame sizes (and openWS
in src never installs readLimit on the transport). -/
theorem oversized_frame_is_not_a_protocol_error :
    (handleMessage engine0 connReady (RawMessage.parsed (readLimit + 1) WireMessage.ping)).2.2 = none ∧
    runMain engine0 connReady [RawMessage.parsed (readLimit + 1) WireMessage.ping]
      = (connReady, [Event.sent OutMessage.pong], MainExit.channelClosed) := by
  decide

/-- Claim C8 (amended): a frame with unparseable JSON or an unknown type
tag does not crash the dispatch task — handleMessage yields the
InvalidJSON respectively InvalidMessageType protocol error and the
dispatch loop terminates cleanly with it, leaving the state untouched and
the remaining frames unprocessed; frame sizes are never inspected by
dispatch, so the declared read-limit cap plays no role there. -/
theorem dispatch_protocol_errors_terminate_cleanly (eng : Engine) (c : Connection) :
    (∀ sz fs, runMain eng c (RawMessage.malformed sz :: fs)
        = (c, [], MainExit.dispatchError GoError.invalidJSON)) ∧
    (∀ sz tag fs, runMain eng c (RawMessage.parsed sz (WireMessage.unknown tag) :: fs)
        = (c, [], MainExit.dispatchError GoError.invalidMessageType)) ∧
    (∀ sz1 sz2 w, handleMessage eng c (RawMessage.parsed sz1 w)
        = handleMessage eng c (RawMessage.parsed sz2 w)) := by
  refine ⟨?_, ?_, ?_⟩
  · intro sz fs; simp [runMain, handleMessage]
  · intro sz tag fs; simp [runMain, handleMessage]
  · intro sz1 sz2 w; rfl

/-- Claim C3: handling accept with isExistUser=true creates the session
and writes exactly one offer frame (also the only session-description
frame of the handling); with isExistUser=false it creates the session and
writes no session-description frame; stated for a VP8 configuration, an
open transport and successful engine calls. -/
theorem accept_sends_offer_iff_exist_client (eng : Engine) (c : Connection)
    (a : AcceptMessage) (n : Nat)
    (hcodec : c.Options.Video.Codec = "VP8")
    (hnew : eng.newPeerConnection = true)
    (htr : eng.addTransceiver = true)
    (hoff : ∃ s, eng.createOffer = some s)
    (hws : c.ws = some ()) :
    ((handleMessage eng c (RawMessage.parsed n (WireMessage.accept a))).1.pc.isSome = true) ∧
    (a.IsExistClient = true →
      List.countP Event.isSentOffer
        (handleMessage eng c (RawMessage.parsed n (WireMessage.accept a))).2.1 = 1 ∧
      List.countP Event.isSentSdp
        (handleMessage eng c (RawMessage.parsed n (WireMessage.accept a))).2.1 = 1) ∧
    (a.IsExistClient = false →
      List.countP Event.isSentSdp
        (handleMessage eng c (RawMessage.parsed n (WireMessage.accept a))).2.1 = 0) := by
  obtain ⟨s, hs⟩ := hoff
  rcases hpc : c.pc with _ | pc <;> rcases hic : a.IceServers with _ | l <;>
    rcases hex : a.IsExistClient <;>
    try by_cases hl : l = []
  all_goals
    simp [handleMessage, createPeerConnection, sendOffer, sendMsgEv,
      PeerConnection.setLocal, PeerConnection.fresh,
      Event.isSentOffer, Event.isSentSdp, *]

/-- Witness for C3: on the ready VP8 connection with the all-successful
engine, accept with the remote peer present creates the session and sends
exactly one offer; with no remote peer present it sends nothing. -/
theorem accept_sends_offer_iff_exist_client_witness :
    ((handleMessage engine0 connReady (RawMessage.parsed 20 (WireMessage.accept
        { ConnectionID := "c1", IsExistClient := true }))).1.pc.isSome = true) ∧
    (List.countP Event.isSentOffer
      (handleMessage engine0 connReady (RawMessage.parsed 20 (WireMessage.accept
        { ConnectionID := "c1", IsExistClient := true }))).2.1 = 1) ∧
    (List.countP Event.isSentSdp
      (handleMessage engine0 connReady (RawMessage.parsed 20 (WireMessage.accept
        { ConnectionID := "c2", IsExistClient := false }))).2.1 = 0) := by
  have h1 := accept_sends_offer_iff_exist_client engine0 connReady
    { ConnectionID := "c1", IsExistClient := true } 20 rfl rfl rfl ⟨"local-offer-sdp", rfl⟩ rfl
  have h2 := accept_sends_offer_iff_exist_client engine0 connReady
    { ConnectionID := "c2", IsExistClient := false } 20 rfl rfl rfl ⟨"local-offer-sdp", rfl⟩ rfl
  exact ⟨h1.1, (h1.2.1 rfl).1, h2.2.2 rfl⟩

/-- Claim C4: an inbound offer arriving while the local offer is pending
(signaling state have-local-offer) discards the session and recreates it,
applies the remote offer and writes exactly one answer frame (also the
only session-description frame); the single resulting session is the
fresh one with the remote offer and the local answer applied; stated for
VP8, an open transport and successful engine calls. -/
theorem glare_offer_recreates_and_answers_once (eng : Engine) (c : Connection)
    (pc : PeerConnection) (d : SessionDescription) (n : Nat)
    (hpc : c.pc = some pc)
    (hglare : pc.signalingState = SignalingState.haveLocalOffer)
    (hcodec : c.Options.Video.Codec = "VP8")
    (hnew : eng.newPeerConnection = true)
    (htr : eng.addTransceiver = true)
    (hsrd : eng.setRemoteDescription = true)
    (hans : ∃ s, eng.createAnswer = some s)
    (hws : c.ws = some ()) :
    (handleMessage eng c (RawMessage.parsed n (WireMessage.offer d))).2.2 = none ∧
    List.countP Event.isSentAnswer
      (handleMessage eng c (RawMessage.parsed n (WireMessage.offer d))).2.1 = 1 ∧
    List.countP Event.isSentSdp
      (handleMessage eng c (RawMessage.parsed n (WireMessage.offer d))).2.1 = 1 ∧
    (∃ s, eng.createAnswer = some s ∧
      (handleMessage eng c (RawMessage.parsed n (WireMessage.offer d))).1.pc
        = some ((PeerConnection.fresh.setRemote d).setLocal
            { sdpType := SDPType.answer, SDP := s })) := by
  obtain ⟨s, hs⟩ := hans
  refine ⟨?_, ?_, ?_, ⟨s, hs, ?_⟩⟩ <;>
    simp [handleMessage, createPeerConnection, setOffer, createAnswer, sendMsgEv,
      PeerConnection.setLocal, PeerConnection.setRemote, PeerConnection.fresh,
      hpc, hglare, hcodec, hnew, htr, hsrd, hs, hws,
      Event.isSentAnswer, Event.isSentSdp]

/-- Witness for C4: on the glare state (own offer pending) a remote offer
yields no error, exactly one outbound answer, and the recreated session
holding the remote offer and the fresh local answer. -/
theorem glare_offer_recreates_and_answers_once_witness :
    (handleMessage engine0 connGlare
      (RawMessage.parsed 9 (WireMessage.offer { sdpType := SDPType.offer, SDP := "remote" }))).2.2 = none ∧
    List.countP Event.isSentAnswer
      (handleMessage engine0 connGlare
        (RawMessage.parsed 9 (WireMessage.offer { sdpType := SDPType.offer, SDP := "remote" }))).2.1 = 1 := by
  have h := glare_offer_recreates_and_answers_once engine0 connGlare
    { signalingState := SignalingState.haveLocalOffer }
    { sdpType := SDPType.offer, SDP := "remote" } 9 rfl rfl rfl rfl rfl rfl
    ⟨"local-answer-sdp", rfl⟩ rfl
  exact ⟨h.1, h.2.1⟩

/-- Claim C6: starting from the constructor's state (engine configuration
seeded with the options' fallback servers), handling accept replaces the
configured ICE-server set wholesale with the message's list, converted
entrywise, exactly when that list is present and non-empty; otherwise the
fallback servers from the options remain in place. -/
theorem accept_ice_server_replacement (eng : Engine) (url room : String)
    (opts : ConnectionOptions) (a : AcceptMessage) (n : Nat) :
    (handleMessage eng (NewConnection url room opts)
        (RawMessage.parsed n (WireMessage.accept a))).1.pcConfig.ICEServers
      = match a.IceServers with
        | some l => if l = [] then opts.ICEServers else l.map iceServerFromEntry
        | none => opts.ICEServers := by
  have hq := createPeerConnection_pcConfig eng
  have hr := sendOffer_pcConfig eng
  simp only [handleMessage]
  rcases hic : a.IceServers with _ | l
  · split
    · simp [hr, hq, NewConnection]
    · simp [hq, NewConnection]
  · by_cases hl : l = [] <;>
      (split
       · simp [hr, hq, NewConnection, hl]
       · simp [hq, NewConnection, hl])

/-- Claim C7: Connect returns an immediate error with no state change, no
events and no teardown whenever a transport or session handle exists;
otherwise (and with the dial and the write succeeding) it installs the
transport handle, spawns the read and dispatch tasks and writes the
register frame built from the room, the options and the authn
metadata. -/
theorem Connect_guard_and_success (c : Connection) :
    ((c.ws.isSome || c.pc.isSome) = true →
      ∀ openOK sendOK, Connect openOK sendOK c = (c, [], some GoError.connectionAlreadyExists)) ∧
    (c.ws = none → c.pc = none →
      Connect true true c = ({ c with ws := some () },
        [Event.taskStarted "recv", Event.taskStarted "main",
         Event.sent (OutMessage.register (registerMessageOf c))], none)) := by
  constructor
  · intro h openOK sendOK; simp [Connect, h]
  · intro hws hpc
    simp [Connect, signaling, sendRegisterMessage, registerMessageOf, hws, hpc]

/-- Witness for C7: a connection with an open transport is refused with
the already-exists error and left untouched; a fresh connection gets the
transport installed, both tasks spawned and the register frame written. -/
theorem Connect_guard_and_success_witness :
    Connect true true connReady = (connReady, [], some GoError.connectionAlreadyExists) ∧
    Connect true true connFresh = ({ connFresh with ws := some () },
      [Event.taskStarted "recv", Event.taskStarted "main",
       Event.sent (OutMessage.register (registerMessageOf connFresh))], none) := by
  exact ⟨(Connect_guard_and_success connReady).1 rfl true true,
         (Connect_guard_and_success connFresh).2 rfl rfl⟩

end Ayame
